import Mathlib

/-!
Verification of the order-calculation engine of this repository
(`OrderCalculator`): fixed-point scaling, per-leg amount derivation,
validation ordering, and summary statistics.

Human-scale prices and amounts are embedded as exact rationals (`ℚ`);
scaled ("lamport") amounts are the integers the source produces with
`Math.floor(amount * 10 ** decimals)` and carries as decimal strings,
embedded as `ℤ`.  Optional request fields are `Option` values; a
JavaScript conditional `x && ...` on an optional number is truthiness,
i.e. present-and-nonzero.  The informational `description` string of an
order (display formatting only, read by nothing) is not modelled.
-/

namespace SageBG

/-- `OrderCalculationParams`: the input of the calculator.  `takeProfitPrice`
and `stopLossPrice` are optional; `inputDecimals` and `outputDecimals`
default to 9 (SOL) and 6 (USDC) when absent. -/
structure OrderCalculationParams where
  currentPrice : ℚ
  buyPrice : ℚ
  takeProfitPrice : Option ℚ
  stopLossPrice : Option ℚ
  amountToSell : ℚ
  inputDecimals : Option ℕ
  outputDecimals : Option ℕ
deriving DecidableEq

/-- `private defaultInputDecimals = 9` (SOL). -/
def defaultInputDecimals : ℕ := 9

/-- `private defaultOutputDecimals = 6` (USDC). -/
def defaultOutputDecimals : ℕ := 6

/-- `convertToLamports`: `Math.floor(amount * Math.pow(10, decimals)).toString()`.
The decimal string holds an integer; we embed it as that integer. -/
def convertToLamports (amount : ℚ) (decimals : ℕ) : ℤ :=
  ⌊amount * (10 : ℚ) ^ decimals⌋

/-- `convertFromLamports`: `parseInt(lamports) / Math.pow(10, decimals)`. -/
def convertFromLamports (lamports : ℤ) (decimals : ℕ) : ℚ :=
  (lamports : ℚ) / (10 : ℚ) ^ decimals

/-- Result triple of `calculateOrderAmounts`. -/
structure OrderAmounts where
  makingAmount : ℤ
  takingAmount : ℤ
  expectedOutput : ℚ
deriving DecidableEq

/-- `calculateOrderAmounts(inputAmount, targetPrice, inputDecimals, outputDecimals)`. -/
def calculateOrderAmounts (inputAmount targetPrice : ℚ)
    (inputDecimals outputDecimals : ℕ) : OrderAmounts :=
  { makingAmount := convertToLamports inputAmount inputDecimals,
    takingAmount := convertToLamports (inputAmount * targetPrice) outputDecimals,
    expectedOutput := inputAmount * targetPrice }

/-- The `type` discriminator of a calculated order. -/
inductive OrderType
  | BUY
  | TAKE_PROFIT
  | STOP_LOSS
deriving DecidableEq

/-- `CalculatedOrder` (without the informational `description` string). -/
structure CalculatedOrder where
  type : OrderType
  makingAmount : ℤ
  takingAmount : ℤ
  targetPrice : ℚ
  expectedOutputAmount : ℚ
deriving DecidableEq

/-- The `summary` record of `OrderCalculations`. -/
structure OrderSummary where
  totalOrders : ℕ
  totalInputAmount : ℚ
  totalExpectedOutput : ℚ
  riskRewardRatio : Option ℚ
deriving DecidableEq

/-- `OrderCalculations`: the aggregate result. -/
structure OrderCalculations where
  buyOrder : CalculatedOrder
  takeProfitOrder : Option CalculatedOrder
  stopLossOrder : Option CalculatedOrder
  summary : OrderSummary
deriving DecidableEq

/-- One distinct error per `throw` of `validateInputs`, in source order. -/
inductive CalcError
  | invalidAmount
  | invalidBuyPrice
  | invalidCurrentPrice
  | invalidTakeProfit
  | invalidStopLoss
  | inconsistentTargets
deriving DecidableEq

/-- JavaScript truthiness of an optional number: `undefined` and `0` are
falsy, every other rational is truthy. -/
def truthy (x : Option ℚ) : Bool :=
  match x with
  | none => false
  | some v => decide (v ≠ 0)

/-- `amountToSell <= 0`. -/
def amountBad (p : OrderCalculationParams) : Bool :=
  decide (p.amountToSell ≤ 0)

/-- `buyPrice <= 0`. -/
def buyPriceBad (p : OrderCalculationParams) : Bool :=
  decide (p.buyPrice ≤ 0)

/-- `currentPrice <= 0`. -/
def currentPriceBad (p : OrderCalculationParams) : Bool :=
  decide (p.currentPrice ≤ 0)

/-- `takeProfitPrice && takeProfitPrice <= buyPrice`. -/
def tpBad (p : OrderCalculationParams) : Bool :=
  truthy p.takeProfitPrice && decide (p.takeProfitPrice.getD 0 ≤ p.buyPrice)

/-- `stopLossPrice && stopLossPrice >= buyPrice`. -/
def slBad (p : OrderCalculationParams) : Bool :=
  truthy p.stopLossPrice && decide (p.buyPrice ≤ p.stopLossPrice.getD 0)

/-- `takeProfitPrice && stopLossPrice && takeProfitPrice <= stopLossPrice`. -/
def tpslBad (p : OrderCalculationParams) : Bool :=
  truthy p.takeProfitPrice && truthy p.stopLossPrice &&
    decide (p.takeProfitPrice.getD 0 ≤ p.stopLossPrice.getD 0)

/-- `validateInputs`: the source throws at the first failing check; we return
the corresponding error, `none` meaning the request is accepted. -/
def validateInputs (p : OrderCalculationParams) : Option CalcError :=
  if amountBad p then some .invalidAmount
  else if buyPriceBad p then some .invalidBuyPrice
  else if currentPriceBad p then some .invalidCurrentPrice
  else if tpBad p then some .invalidTakeProfit
  else if slBad p then some .invalidStopLoss
  else if tpslBad p then some .inconsistentTargets
  else none

/-- `calculateBuyOrder`. -/
def calculateBuyOrder (p : OrderCalculationParams) : CalculatedOrder :=
  let inD := p.inputDecimals.getD defaultInputDecimals
  let outD := p.outputDecimals.getD defaultOutputDecimals
  let a := calculateOrderAmounts p.amountToSell p.buyPrice inD outD
  { type := .BUY, makingAmount := a.makingAmount, takingAmount := a.takingAmount,
    targetPrice := p.buyPrice, expectedOutputAmount := a.expectedOutput }

/-- `calculateTakeProfitOrder`: disposes of `amountToSell * buyPrice` (the
quantity the buy leg acquires) with the decimal precisions swapped.  The
source throws when `takeProfitPrice` is falsy (`none` here). -/
def calculateTakeProfitOrder (p : OrderCalculationParams) : Option CalculatedOrder :=
  match p.takeProfitPrice with
  | none => none
  | some tp =>
    if tp = 0 then none
    else
      let inD := p.inputDecimals.getD defaultInputDecimals
      let outD := p.outputDecimals.getD defaultOutputDecimals
      let expectedOutputFromBuy := p.amountToSell * p.buyPrice
      let a := calculateOrderAmounts expectedOutputFromBuy tp outD inD
      some { type := .TAKE_PROFIT, makingAmount := a.makingAmount,
             takingAmount := a.takingAmount, targetPrice := tp,
             expectedOutputAmount := a.expectedOutput }

/-- `calculateStopLossOrder`: same shape as take-profit with `stopLossPrice`. -/
def calculateStopLossOrder (p : OrderCalculationParams) : Option CalculatedOrder :=
  match p.stopLossPrice with
  | none => none
  | some sl =>
    if sl = 0 then none
    else
      let inD := p.inputDecimals.getD defaultInputDecimals
      let outD := p.outputDecimals.getD defaultOutputDecimals
      let expectedOutputFromBuy := p.amountToSell * p.buyPrice
      let a := calculateOrderAmounts expectedOutputFromBuy sl outD inD
      some { type := .STOP_LOSS, makingAmount := a.makingAmount,
             takingAmount := a.takingAmount, targetPrice := sl,
             expectedOutputAmount := a.expectedOutput }

/-- The take-profit leg of `calculateOrders`:
`if (takeProfitPrice && takeProfitPrice > buyPrice)` compute it, else absent. -/
def tpLeg (p : OrderCalculationParams) : Option CalculatedOrder :=
  if truthy p.takeProfitPrice && decide (p.buyPrice < p.takeProfitPrice.getD 0) then
    calculateTakeProfitOrder p
  else none

/-- The stop-loss leg of `calculateOrders`:
`if (stopLossPrice && stopLossPrice < buyPrice)` compute it, else absent. -/
def slLeg (p : OrderCalculationParams) : Option CalculatedOrder :=
  if truthy p.stopLossPrice && decide (p.stopLossPrice.getD 0 < p.buyPrice) then
    calculateStopLossOrder p
  else none

/-- `calculateSummary`: only the BUY leg contributes to the totals (the
source converts its `makingAmount` back at a hard-coded 9 decimals), and
the risk/reward ratio exists when both exit legs do and the potential
loss is positive. -/
def calculateSummary (buyOrder : CalculatedOrder)
    (takeProfitOrder stopLossOrder : Option CalculatedOrder) : OrderSummary :=
  let orders := ([some buyOrder, takeProfitOrder, stopLossOrder] :
    List (Option CalculatedOrder)).filterMap id
  let totals := orders.foldl
    (fun (t : ℚ × ℚ) o =>
      if o.type = OrderType.BUY then
        (t.1 + convertFromLamports o.makingAmount 9, t.2 + o.expectedOutputAmount)
      else t)
    ((0 : ℚ), (0 : ℚ))
  let riskRewardRatio : Option ℚ :=
    match takeProfitOrder, stopLossOrder with
    | some tpO, some slO =>
      let potentialProfit := tpO.targetPrice - buyOrder.targetPrice
      let potentialLoss := buyOrder.targetPrice - slO.targetPrice
      if 0 < potentialLoss then some (potentialProfit / potentialLoss) else none
    | _, _ => none
  { totalOrders := orders.length, totalInputAmount := totals.1,
    totalExpectedOutput := totals.2, riskRewardRatio := riskRewardRatio }

/-- `calculateOrders`: validate (propagating the first failure), then build
the buy leg, the optional exit legs and the summary. -/
def calculateOrders (p : OrderCalculationParams) : Except CalcError OrderCalculations :=
  match validateInputs p with
  | some e => .error e
  | none =>
    .ok { buyOrder := calculateBuyOrder p, takeProfitOrder := tpLeg p,
          stopLossOrder := slLeg p,
          summary := calculateSummary (calculateBuyOrder p) (tpLeg p) (slLeg p) }

/-- A request is well formed when its optional target prices, typed by the
spec as optional positive decimals, are positive whenever present. -/
def wellFormed (p : OrderCalculationParams) : Bool :=
  p.takeProfitPrice.all (fun v => decide (0 < v)) &&
    p.stopLossPrice.all (fun v => decide (0 < v))

/-- Modelled from the spec wording of the §3 invariants ("if present": the
field carries a value), for comparison with the source validation:
the ordered check list, first failure reported. -/
def spec3Checks (p : OrderCalculationParams) : List (Bool × CalcError) :=
  [(decide (p.amountToSell ≤ 0), .invalidAmount),
   (decide (p.buyPrice ≤ 0), .invalidBuyPrice),
   (decide (p.currentPrice ≤ 0), .invalidCurrentPrice),
   ((match p.takeProfitPrice with
     | some tp => decide (tp ≤ p.buyPrice)
     | none => false), .invalidTakeProfit),
   ((match p.stopLossPrice with
     | some sl => decide (p.buyPrice ≤ sl)
     | none => false), .invalidStopLoss),
   ((match p.takeProfitPrice, p.stopLossPrice with
     | some tp, some sl => decide (tp ≤ sl)
     | _, _ => false), .inconsistentTargets)]

/-- First violated rule of the ordered §3 check list. -/
def firstViolation (p : OrderCalculationParams) : Option CalcError :=
  ((spec3Checks p).find? (fun c => c.1)).map (fun c => c.2)

/-- All §3 invariants hold (presence read as the spec words it). -/
def spec3Holds (p : OrderCalculationParams) : Bool :=
  (spec3Checks p).all (fun c => !c.1)

/-- The concrete scenario of §8.6 of the spec. -/
def pScenario : OrderCalculationParams :=
  { currentPrice := 100, buyPrice := 95, takeProfitPrice := some 110,
    stopLossPrice := some 85, amountToSell := 1,
    inputDecimals := some 9, outputDecimals := some 6 }

/-- The exact result of `calculateOrders` on the §8.6 scenario. -/
def resScenario : OrderCalculations :=
  { buyOrder := { type := .BUY, makingAmount := 1000000000, takingAmount := 95000000,
                  targetPrice := 95, expectedOutputAmount := 95 },
    takeProfitOrder := some { type := .TAKE_PROFIT, makingAmount := 95000000,
                              takingAmount := 10450000000000, targetPrice := 110,
                              expectedOutputAmount := 10450 },
    stopLossOrder := some { type := .STOP_LOSS, makingAmount := 95000000,
                            takingAmount := 8075000000000, targetPrice := 85,
                            expectedOutputAmount := 8075 },
    summary := { totalOrders := 3, totalInputAmount := 1, totalExpectedOutput := 95,
                 riskRewardRatio := some (3 / 2) } }

lemma validate_pScenario : validateInputs pScenario = none := by
  norm_num [validateInputs, amountBad, buyPriceBad, currentPriceBad, tpBad, slBad,
    tpslBad, truthy, pScenario]

lemma calculateOrders_pScenario : calculateOrders pScenario = Except.ok resScenario := by
  simp only [calculateOrders, validate_pScenario]
  norm_num [calculateBuyOrder, tpLeg, slLeg,
    calculateTakeProfitOrder, calculateStopLossOrder, calculateOrderAmounts,
    calculateSummary, convertToLamports, convertFromLamports, truthy, pScenario,
    resScenario, defaultInputDecimals, defaultOutputDecimals,
    List.filterMap_cons, List.filterMap_nil, List.foldl_cons, List.foldl_nil,
    eq_false (show ¬(OrderType.STOP_LOSS = OrderType.BUY) from by decide),
    eq_false (show ¬(OrderType.TAKE_PROFIT = OrderType.BUY) from by decide)]

lemma calculateOrders_ok {p : OrderCalculationParams} {res : OrderCalculations}
    (h : calculateOrders p = Except.ok res) :
    validateInputs p = none ∧
      res = { buyOrder := calculateBuyOrder p, takeProfitOrder := tpLeg p,
              stopLossOrder := slLeg p,
              summary := calculateSummary (calculateBuyOrder p) (tpLeg p) (slLeg p) } := by
  cases hv : validateInputs p with
  | some e => simp [calculateOrders, hv] at h
  | none =>
    refine ⟨rfl, ?_⟩
    simp only [calculateOrders, hv] at h
    exact (Except.ok.inj h).symm

lemma calculateOrders_error {p : OrderCalculationParams} {e : CalcError}
    (h : calculateOrders p = Except.error e) : validateInputs p = some e := by
  cases hv : validateInputs p with
  | some f =>
    simp only [calculateOrders, hv] at h
    rw [Except.error.inj h]
  | none => simp [calculateOrders, hv] at h

lemma validateInputs_eq_none_iff (p : OrderCalculationParams) :
    validateInputs p = none ↔
      amountBad p = false ∧ buyPriceBad p = false ∧ currentPriceBad p = false ∧
        tpBad p = false ∧ slBad p = false ∧ tpslBad p = false := by
  unfold validateInputs
  split_ifs <;> simp_all

lemma tpLeg_makingAmount {p : OrderCalculationParams} {o : CalculatedOrder}
    (h : tpLeg p = some o) :
    o.makingAmount = convertToLamports (p.amountToSell * p.buyPrice)
      (p.outputDecimals.getD defaultOutputDecimals) := by
  unfold tpLeg at h
  split_ifs at h
  cases htp : p.takeProfitPrice with
  | none => simp [calculateTakeProfitOrder, htp] at h
  | some tp =>
    simp only [calculateTakeProfitOrder, htp] at h
    split_ifs at h
    obtain rfl := (Option.some.injEq _ _).mp h
    rfl

lemma slLeg_makingAmount {p : OrderCalculationParams} {o : CalculatedOrder}
    (h : slLeg p = some o) :
    o.makingAmount = convertToLamports (p.amountToSell * p.buyPrice)
      (p.outputDecimals.getD defaultOutputDecimals) := by
  unfold slLeg at h
  split_ifs at h
  cases hsl : p.stopLossPrice with
  | none => simp [calculateStopLossOrder, hsl] at h
  | some sl =>
    simp only [calculateStopLossOrder, hsl] at h
    split_ifs at h
    obtain rfl := (Option.some.injEq _ _).mp h
    rfl

lemma wellFormed_tp {p : OrderCalculationParams} (hw : wellFormed p = true) :
    ∀ tp, p.takeProfitPrice = some tp → 0 < tp := by
  intro tp h
  simp only [wellFormed, h, Option.all_some, Bool.and_eq_true, decide_eq_true_eq] at hw
  exact hw.1

lemma wellFormed_sl {p : OrderCalculationParams} (hw : wellFormed p = true) :
    ∀ sl, p.stopLossPrice = some sl → 0 < sl := by
  intro sl h
  simp only [wellFormed, h, Option.all_some, Bool.and_eq_true, decide_eq_true_eq] at hw
  exact hw.2

lemma validate_eq_firstViolation (p : OrderCalculationParams)
    (hw : wellFormed p = true) : validateInputs p = firstViolation p := by
  rcases htp : p.takeProfitPrice with _ | tp <;>
    rcases hsl : p.stopLossPrice with _ | sl
  · simp only [validateInputs, firstViolation, spec3Checks, amountBad, buyPriceBad,
      currentPriceBad, tpBad, slBad, tpslBad, truthy, htp, hsl]
    cases hA : decide (p.amountToSell ≤ 0) <;>
      cases hB : decide (p.buyPrice ≤ 0) <;>
        cases hC : decide (p.currentPrice ≤ 0) <;>
          simp [hA, hB, hC, List.find?]
  · have hsl0 : decide (sl ≠ 0) = true := decide_eq_true (ne_of_gt (wellFormed_sl hw sl hsl))
    simp only [validateInputs, firstViolation, spec3Checks, amountBad, buyPriceBad,
      currentPriceBad, tpBad, slBad, tpslBad, truthy, htp, hsl, Option.getD_some, hsl0]
    cases hA : decide (p.amountToSell ≤ 0) <;>
      cases hB : decide (p.buyPrice ≤ 0) <;>
        cases hC : decide (p.currentPrice ≤ 0) <;>
          cases hS : decide (p.buyPrice ≤ sl) <;>
            simp [hA, hB, hC, hS, List.find?]
  · have htp0 : decide (tp ≠ 0) = true := decide_eq_true (ne_of_gt (wellFormed_tp hw tp htp))
    simp only [validateInputs, firstViolation, spec3Checks, amountBad, buyPriceBad,
      currentPriceBad, tpBad, slBad, tpslBad, truthy, htp, hsl, Option.getD_some, htp0]
    cases hA : decide (p.amountToSell ≤ 0) <;>
      cases hB : decide (p.buyPrice ≤ 0) <;>
        cases hC : decide (p.currentPrice ≤ 0) <;>
          cases hT : decide (tp ≤ p.buyPrice) <;>
            simp [hA, hB, hC, hT, List.find?]
  · have htp0 : decide (tp ≠ 0) = true := decide_eq_true (ne_of_gt (wellFormed_tp hw tp htp))
    have hsl0 : decide (sl ≠ 0) = true := decide_eq_true (ne_of_gt (wellFormed_sl hw sl hsl))
    simp only [validateInputs, firstViolation, spec3Checks, amountBad, buyPriceBad,
      currentPriceBad, tpBad, slBad, tpslBad, truthy, htp, hsl, Option.getD_some,
      htp0, hsl0]
    cases hA : decide (p.amountToSell ≤ 0) <;>
      cases hB : decide (p.buyPrice ≤ 0) <;>
        cases hC : decide (p.currentPrice ≤ 0) <;>
          cases hT : decide (tp ≤ p.buyPrice) <;>
            cases hS : decide (p.buyPrice ≤ sl) <;>
              cases hTS : decide (tp ≤ sl) <;>
                simp [hA, hB, hC, hT, hS, hTS, List.find?]

/-- Claim C8: for every non-negative amount and every decimals value,
`toScaledAmount` (the source's `convertToLamports`) returns exactly
`floor(amount * 10 ^ decimals)`: it truncates toward zero, never rounds up,
so the scaled integer never exceeds the exact product. -/
theorem toScaledAmount_truncates :
    ∀ a : ℚ, 0 ≤ a → ∀ d : ℕ,
      convertToLamports a d = ⌊a * (10 : ℚ) ^ d⌋ ∧
        (convertToLamports a d : ℚ) ≤ a * (10 : ℚ) ^ d := by
  intro a _ d
  exact ⟨rfl, Int.floor_le _⟩

/-- Witness for C8 at `a = 7/3`, `d = 2`: the scaled amount is
`⌊700/3⌋ = 233 ≤ 700/3`. -/
theorem toScaledAmount_truncates_witness :
    (0 : ℚ) ≤ 7 / 3 ∧
      (convertToLamports (7 / 3) 2 = ⌊(7 / 3 : ℚ) * (10 : ℚ) ^ (2 : ℕ)⌋ ∧
        (convertToLamports (7 / 3) 2 : ℚ) ≤ (7 / 3 : ℚ) * (10 : ℚ) ^ (2 : ℕ)) ∧
      convertToLamports (7 / 3) 2 = 233 :=
  ⟨by norm_num, toScaledAmount_truncates (7 / 3) (by norm_num) 2,
    by norm_num [convertToLamports]⟩

/-- Claim C2: for every non-negative amount `a` and decimals `d ≤ 12`, the
round trip `fromScaledAmount (toScaledAmount a d) d` recovers exactly the
truncated value `⌊a * 10 ^ d⌋ / 10 ^ d`. -/
theorem roundTrip_scaling :
    ∀ a : ℚ, 0 ≤ a → ∀ d : ℕ, d ≤ 12 →
      convertFromLamports (convertToLamports a d) d =
        (⌊a * (10 : ℚ) ^ d⌋ : ℚ) / (10 : ℚ) ^ d := by
  intro a _ d _
  rfl

/-- Witness for C2 at `a = 5/4`, `d = 1`: the round trip yields
`⌊25/2⌋ / 10 = 6/5`, the truncation of `5/4` to one decimal. -/
theorem roundTrip_scaling_witness :
    (0 : ℚ) ≤ 5 / 4 ∧ (1 : ℕ) ≤ 12 ∧
      convertFromLamports (convertToLamports (5 / 4) 1) 1 =
        (⌊(5 / 4 : ℚ) * (10 : ℚ) ^ (1 : ℕ)⌋ : ℚ) / (10 : ℚ) ^ (1 : ℕ) ∧
      convertFromLamports (convertToLamports (5 / 4) 1) 1 = 6 / 5 :=
  ⟨by norm_num, by norm_num, roundTrip_scaling (5 / 4) (by norm_num) 1 (by norm_num),
    by norm_num [convertToLamports, convertFromLamports]⟩

/-- Claim C1: on every successful calculation, each exit leg's
`makingAmount` is `toScaledAmount(amountToSell * buyPrice, outputDecimals)`,
the scaled quantity the buy leg is expected to acquire (the buy leg's
`takingAmount` computation), for the take-profit and the stop-loss leg
alike. -/
theorem exit_legs_dispose_buy_output :
    ∀ p res, calculateOrders p = Except.ok res →
      (∀ o, res.takeProfitOrder = some o →
        o.makingAmount = convertToLamports (p.amountToSell * p.buyPrice)
          (p.outputDecimals.getD defaultOutputDecimals)) ∧
      (∀ o, res.stopLossOrder = some o →
        o.makingAmount = convertToLamports (p.amountToSell * p.buyPrice)
          (p.outputDecimals.getD defaultOutputDecimals)) := by
  intro p res h
  obtain ⟨-, hres⟩ := calculateOrders_ok h
  subst hres
  exact ⟨fun _ ho => tpLeg_makingAmount ho, fun _ ho => slLeg_makingAmount ho⟩

/-- Witness for C1 at the §8.6 scenario: both exit legs dispose of
`toScaledAmount(1 * 95, 6) = 95000000`. -/
theorem exit_legs_dispose_buy_output_witness :
    calculateOrders pScenario = Except.ok resScenario ∧
      Option.map CalculatedOrder.makingAmount resScenario.takeProfitOrder =
        some (convertToLamports (pScenario.amountToSell * pScenario.buyPrice)
          (pScenario.outputDecimals.getD defaultOutputDecimals)) ∧
      Option.map CalculatedOrder.makingAmount resScenario.stopLossOrder =
        some (convertToLamports (pScenario.amountToSell * pScenario.buyPrice)
          (pScenario.outputDecimals.getD defaultOutputDecimals)) ∧
      convertToLamports (pScenario.amountToSell * pScenario.buyPrice)
        (pScenario.outputDecimals.getD defaultOutputDecimals) = 95000000 := by
  have h := exit_legs_dispose_buy_output pScenario resScenario calculateOrders_pScenario
  exact ⟨calculateOrders_pScenario, congrArg some (h.1 _ rfl), congrArg some (h.2 _ rfl),
    by norm_num [pScenario, convertToLamports, defaultOutputDecimals]⟩

/-- Claim C7: on every successful calculation the buy leg offers
`toScaledAmount(amountToSell, inputDecimals)`, requests
`toScaledAmount(amountToSell * buyPrice, outputDecimals)`, targets
`buyPrice` and expects `amountToSell * buyPrice` at human scale; at
`buyPrice = 95`, `amountToSell = 1`, decimals 9/6 this is
`1000000000 / 95000000 / 95 / 95`. -/
theorem buy_leg_correct :
    (∀ p res, calculateOrders p = Except.ok res →
      res.buyOrder.makingAmount =
          convertToLamports p.amountToSell (p.inputDecimals.getD defaultInputDecimals) ∧
        res.buyOrder.takingAmount =
          convertToLamports (p.amountToSell * p.buyPrice)
            (p.outputDecimals.getD defaultOutputDecimals) ∧
        res.buyOrder.targetPrice = p.buyPrice ∧
        res.buyOrder.expectedOutputAmount = p.amountToSell * p.buyPrice) ∧
    (calculateOrders pScenario = Except.ok resScenario ∧
      resScenario.buyOrder.makingAmount = 1000000000 ∧
      resScenario.buyOrder.takingAmount = 95000000 ∧
      resScenario.buyOrder.targetPrice = 95 ∧
      resScenario.buyOrder.expectedOutputAmount = 95) := by
  constructor
  · intro p res h
    obtain ⟨-, hres⟩ := calculateOrders_ok h
    subst hres
    exact ⟨rfl, rfl, rfl, rfl⟩
  · exact ⟨calculateOrders_pScenario, rfl, rfl, rfl, rfl⟩

/-- Witness for C7 at the §8.6 scenario, with the scaled amounts
evaluated. -/
theorem buy_leg_correct_witness :
    calculateOrders pScenario = Except.ok resScenario ∧
      (resScenario.buyOrder.makingAmount =
          convertToLamports pScenario.amountToSell
            (pScenario.inputDecimals.getD defaultInputDecimals) ∧
        resScenario.buyOrder.takingAmount =
          convertToLamports (pScenario.amountToSell * pScenario.buyPrice)
            (pScenario.outputDecimals.getD defaultOutputDecimals) ∧
        resScenario.buyOrder.targetPrice = pScenario.buyPrice ∧
        resScenario.buyOrder.expectedOutputAmount =
          pScenario.amountToSell * pScenario.buyPrice) ∧
      convertToLamports pScenario.amountToSell
          (pScenario.inputDecimals.getD defaultInputDecimals) = 1000000000 :=
  ⟨calculateOrders_pScenario,
    buy_leg_correct.1 pScenario resScenario calculateOrders_pScenario,
    by norm_num [pScenario, convertToLamports, defaultInputDecimals]⟩

lemma calculateOrders_isOk (p : OrderCalculationParams) :
    (calculateOrders p).isOk = true ↔ validateInputs p = none := by
  cases hv : validateInputs p <;>
    simp [calculateOrders, hv, Except.isOk, Except.toBool]

lemma firstViolation_none_iff (p : OrderCalculationParams) :
    firstViolation p = none ↔ spec3Holds p = true := by
  simp [firstViolation, spec3Holds, List.find?_eq_none, List.all_eq_true]

/-- Request with a zero amount and a take-profit target at or below the buy
price: both the amount rule and the take-profit rule are violated. -/
def pAmountZero : OrderCalculationParams :=
  { currentPrice := 100, buyPrice := 95, takeProfitPrice := some 90,
    stopLossPrice := none, amountToSell := 0,
    inputDecimals := none, outputDecimals := none }

/-- Claim C4: validation applies the §3 invariants in the fixed order
amount positivity, buy-price positivity, current-price positivity,
take-profit-above-buy, stop-loss-below-buy, take-profit-above-stop-loss,
and stops at the first failure; in particular a request with
`amountToSell = 0` and a present take-profit at or below the buy price
reports the amount violation, never the take-profit violation. -/
theorem validation_first_failure_order :
    (∀ p, wellFormed p = true → validateInputs p = firstViolation p) ∧
    (∀ p tp, p.amountToSell = 0 → p.takeProfitPrice = some tp →
      tp ≤ p.buyPrice → validateInputs p = some CalcError.invalidAmount) := by
  constructor
  · exact validate_eq_firstViolation
  · intro p tp h0 _ _
    have hA : amountBad p = true := by simp [amountBad, h0]
    simp [validateInputs, hA]

/-- Witness for C4: the §8.6 scenario validates as the first violation of
the ordered check list prescribes (namely, no violation), and the concrete
request `amountToSell = 0`, `takeProfitPrice = 90 ≤ buyPrice = 95` reports
the amount violation. -/
theorem validation_first_failure_order_witness :
    (wellFormed pScenario = true ∧
      validateInputs pScenario = firstViolation pScenario) ∧
    (pAmountZero.amountToSell = 0 ∧ pAmountZero.takeProfitPrice = some 90 ∧
      (90 : ℚ) ≤ pAmountZero.buyPrice ∧
      validateInputs pAmountZero = some CalcError.invalidAmount) := by
  refine ⟨⟨by norm_num [wellFormed, pScenario], ?_⟩, rfl, rfl, by norm_num [pAmountZero], ?_⟩
  · exact validation_first_failure_order.1 pScenario (by norm_num [wellFormed, pScenario])
  · exact validation_first_failure_order.2 pAmountZero 90 rfl rfl (by norm_num [pAmountZero])

/-- The spec's §8.7 concrete rejection scenario: `buyPrice = 95`,
`stopLossPrice = 96`. -/
def pReject : OrderCalculationParams :=
  { currentPrice := 100, buyPrice := 95, takeProfitPrice := none,
    stopLossPrice := some 96, amountToSell := 1,
    inputDecimals := none, outputDecimals := none }

/-- Claim C5: the calculation fails exactly when a §3 invariant is violated,
returning the first violated rule's distinct error and computing no orders,
and `buyPrice = 95, stopLossPrice = 96` is rejected with the stop-loss
error. -/
theorem calculate_fails_iff_spec3_violated :
    (∀ p, wellFormed p = true →
      (((calculateOrders p).isOk = true) ↔ spec3Holds p = true) ∧
      (∀ e, calculateOrders p = Except.error e → firstViolation p = some e)) ∧
    calculateOrders pReject = Except.error CalcError.invalidStopLoss := by
  constructor
  · intro p hw
    constructor
    · rw [calculateOrders_isOk, validate_eq_firstViolation p hw, firstViolation_none_iff]
    · intro e he
      rw [← validate_eq_firstViolation p hw]
      exact calculateOrders_error he
  · have hv : validateInputs pReject = some CalcError.invalidStopLoss := by
      norm_num [validateInputs, amountBad, buyPriceBad, currentPriceBad, tpBad, slBad,
        tpslBad, truthy, pReject]
    simp [calculateOrders, hv]

/-- Witness for C5: at the §8.6 scenario the equivalence is discharged with
all invariants holding and the calculation succeeding, and at the §8.7
rejection scenario the first violated rule is the stop-loss rule. -/
theorem calculate_fails_iff_spec3_violated_witness :
    wellFormed pScenario = true ∧
      (((calculateOrders pScenario).isOk = true) ↔ spec3Holds pScenario = true) ∧
      spec3Holds pScenario = true ∧ (calculateOrders pScenario).isOk = true ∧
      wellFormed pReject = true ∧
      firstViolation pReject = some CalcError.invalidStopLoss := by
  refine ⟨by norm_num [wellFormed, pScenario],
    (calculate_fails_iff_spec3_violated.1 pScenario (by norm_num [wellFormed, pScenario])).1,
    by norm_num [spec3Holds, spec3Checks, pScenario],
    by simp [calculateOrders_pScenario, Except.isOk, Except.toBool],
    by norm_num [wellFormed, pReject], ?_⟩
  exact (calculate_fails_iff_spec3_violated.1 pReject
    (by norm_num [wellFormed, pReject])).2 CalcError.invalidStopLoss
    calculate_fails_iff_spec3_violated.2

/-- Claim C6: on every successful calculation of a well-formed request the
risk/reward ratio is present exactly when both optional targets are
present, in which case it equals
`(takeProfitPrice - buyPrice) / (buyPrice - stopLossPrice)` and is
strictly positive. -/
theorem riskReward_present_and_positive :
    ∀ p res, wellFormed p = true → calculateOrders p = Except.ok res →
      res.summary.riskRewardRatio.isSome =
          (p.takeProfitPrice.isSome && p.stopLossPrice.isSome) ∧
      ∀ tp sl, p.takeProfitPrice = some tp → p.stopLossPrice = some sl →
        res.summary.riskRewardRatio =
            some ((tp - p.buyPrice) / (p.buyPrice - sl)) ∧
          0 < (tp - p.buyPrice) / (p.buyPrice - sl) := by
  intro p res hw h
  obtain ⟨hv, hres⟩ := calculateOrders_ok h
  subst hres
  rw [validateInputs_eq_none_iff] at hv
  obtain ⟨-, -, -, h4, h5, -⟩ := hv
  rcases htp : p.takeProfitPrice with _ | tp <;>
    rcases hsl : p.stopLossPrice with _ | sl
  · constructor
    · simp [calculateSummary, tpLeg, slLeg, truthy, htp, hsl]
    · intro tp sl htp2 _
      simp at htp2
  · constructor
    · simp [calculateSummary, tpLeg, truthy, htp]
    · intro tp sl htp2 _
      simp at htp2
  · constructor
    · simp [calculateSummary, slLeg, truthy, hsl]
    · intro tp sl _ hsl2
      simp at hsl2
  · have htp0 : tp ≠ 0 := ne_of_gt (wellFormed_tp hw tp htp)
    have hsl0 : sl ≠ 0 := ne_of_gt (wellFormed_sl hw sl hsl)
    simp only [tpBad, truthy, htp, Option.getD_some, decide_eq_true htp0,
      Bool.true_and, decide_eq_false_iff_not] at h4
    simp only [slBad, truthy, hsl, Option.getD_some, decide_eq_true hsl0,
      Bool.true_and, decide_eq_false_iff_not] at h5
    have hbuytp : p.buyPrice < tp := not_le.mp h4
    have hslbuy : sl < p.buyPrice := not_le.mp h5
    have hloss : (0 : ℚ) < p.buyPrice - sl := sub_pos.mpr hslbuy
    have hratio :
        (calculateSummary (calculateBuyOrder p) (tpLeg p) (slLeg p)).riskRewardRatio =
          some ((tp - p.buyPrice) / (p.buyPrice - sl)) := by
      simp [calculateSummary, tpLeg, slLeg, truthy, htp, hsl, htp0, hsl0,
        hbuytp, hslbuy, calculateTakeProfitOrder, calculateStopLossOrder,
        calculateBuyOrder, calculateOrderAmounts, hloss]
    refine ⟨by simp [hratio, htp, hsl], ?_⟩
    intro tp2 sl2 htp2 hsl2
    cases Option.some.inj htp2
    cases Option.some.inj hsl2
    exact ⟨hratio, div_pos (sub_pos.mpr hbuytp) hloss⟩

/-- Witness for C6 at the §8.6 scenario: the ratio is
`(110 - 95) / (95 - 85) = 3/2 > 0`. -/
theorem riskReward_present_and_positive_witness :
    wellFormed pScenario = true ∧
      calculateOrders pScenario = Except.ok resScenario ∧
      resScenario.summary.riskRewardRatio =
        some ((110 - pScenario.buyPrice) / (pScenario.buyPrice - 85)) ∧
      (0 : ℚ) < (110 - pScenario.buyPrice) / (pScenario.buyPrice - 85) ∧
      (110 - pScenario.buyPrice) / (pScenario.buyPrice - 85) = 3 / 2 := by
  have h := (riskReward_present_and_positive pScenario resScenario
    (by norm_num [wellFormed, pScenario]) calculateOrders_pScenario).2 110 85 rfl rfl
  exact ⟨by norm_num [wellFormed, pScenario], calculateOrders_pScenario, h.1, h.2,
    by norm_num [pScenario]⟩

/-- Claim C9: a zero-valued optional target is not rejected: validation and
the whole calculation treat `some 0` exactly as an omitted field, for the
take-profit and the stop-loss target alike, so the corresponding leg is
simply absent from the result. -/
theorem zero_target_like_absent :
    ∀ p : OrderCalculationParams,
      (validateInputs { p with takeProfitPrice := some 0 } =
          validateInputs { p with takeProfitPrice := none } ∧
        calculateOrders { p with takeProfitPrice := some 0 } =
          calculateOrders { p with takeProfitPrice := none }) ∧
      (validateInputs { p with stopLossPrice := some 0 } =
          validateInputs { p with stopLossPrice := none } ∧
        calculateOrders { p with stopLossPrice := some 0 } =
          calculateOrders { p with stopLossPrice := none }) := by
  intro p
  have hv1 : validateInputs { p with takeProfitPrice := some 0 } =
      validateInputs { p with takeProfitPrice := none } := by
    simp [validateInputs, amountBad, buyPriceBad, currentPriceBad, tpBad, slBad,
      tpslBad, truthy]
  have hv2 : validateInputs { p with stopLossPrice := some 0 } =
      validateInputs { p with stopLossPrice := none } := by
    simp [validateInputs, amountBad, buyPriceBad, currentPriceBad, tpBad, slBad,
      tpslBad, truthy]
  refine ⟨⟨hv1, ?_⟩, ⟨hv2, ?_⟩⟩
  · have htl : tpLeg { p with takeProfitPrice := some 0 } =
        tpLeg { p with takeProfitPrice := none } := by
      simp [tpLeg, truthy]
    have hsl2 : slLeg { p with takeProfitPrice := some 0 } =
        slLeg { p with takeProfitPrice := none } := by
      simp [slLeg, truthy, calculateStopLossOrder, calculateOrderAmounts]
    have hb : calculateBuyOrder { p with takeProfitPrice := some 0 } =
        calculateBuyOrder { p with takeProfitPrice := none } := by
      simp [calculateBuyOrder, calculateOrderAmounts]
    simp only [calculateOrders, hv1, htl, hsl2, hb]
  · have htl : tpLeg { p with stopLossPrice := some 0 } =
        tpLeg { p with stopLossPrice := none } := by
      simp [tpLeg, truthy, calculateTakeProfitOrder, calculateOrderAmounts]
    have hsl2 : slLeg { p with stopLossPrice := some 0 } =
        slLeg { p with stopLossPrice := none } := by
      simp [slLeg, truthy]
    have hb : calculateBuyOrder { p with stopLossPrice := some 0 } =
        calculateBuyOrder { p with stopLossPrice := none } := by
      simp [calculateBuyOrder, calculateOrderAmounts]
    simp only [calculateOrders, hv2, htl, hsl2, hb]

/-- Request exposing the summary's hard-coded 9 decimals: `inputDecimals = 6`. -/
def pSummaryBug : OrderCalculationParams :=
  { currentPrice := 1, buyPrice := 1, takeProfitPrice := none,
    stopLossPrice := none, amountToSell := 1,
    inputDecimals := some 6, outputDecimals := some 6 }

/-- The exact result of `calculateOrders` on `pSummaryBug`. -/
def resSummaryBug : OrderCalculations :=
  { buyOrder := { type := .BUY, makingAmount := 1000000, takingAmount := 1000000,
                  targetPrice := 1, expectedOutputAmount := 1 },
    takeProfitOrder := none, stopLossOrder := none,
    summary := { totalOrders := 1, totalInputAmount := 1 / 1000,
                 totalExpectedOutput := 1, riskRewardRatio := none } }

/-- Claim C3 (divergence): the summary converts the buy leg's
`makingAmount` back at a hard-coded 9 decimals, so with
`inputDecimals = 6` the reported `totalInputAmount` is `1/1000`, not the
buy leg's human-scale input `fromScaledAmount(makingAmount, 6) = 1`;
`totalExpectedOutput` does equal the buy leg's `expectedOutputAmount`. -/
theorem summary_fixed_nine_decimals_bug :
    calculateOrders pSummaryBug = Except.ok resSummaryBug ∧
      resSummaryBug.summary.totalInputAmount = 1 / 1000 ∧
      convertFromLamports resSummaryBug.buyOrder.makingAmount
        (pSummaryBug.inputDecimals.getD defaultInputDecimals) = 1 ∧
      (1 / 1000 : ℚ) ≠ 1 ∧
      resSummaryBug.summary.totalExpectedOutput =
        resSummaryBug.buyOrder.expectedOutputAmount := by
  have hv : validateInputs pSummaryBug = none := by
    norm_num [validateInputs, amountBad, buyPriceBad, currentPriceBad, tpBad, slBad,
      tpslBad, truthy, pSummaryBug]
  refine ⟨?_, rfl,
    by norm_num [convertFromLamports, resSummaryBug, pSummaryBug, defaultInputDecimals],
    by norm_num, rfl⟩
  simp only [calculateOrders, hv]
  norm_num [calculateBuyOrder, tpLeg, slLeg, truthy, calculateOrderAmounts,
    calculateSummary, convertToLamports, convertFromLamports, pSummaryBug,
    resSummaryBug, defaultInputDecimals, defaultOutputDecimals,
    List.filterMap_cons, List.filterMap_nil, List.foldl_cons, List.foldl_nil]

end SageBG
